import Mathlib

/-!
Verification of the La Main Verte client-side tracker (lmv-tracker.js, with the
UTM-only variant in src/unnamed/part_000 being the same session and decoration
logic minus the fbp cookie, payment domain, reporting, and consent features).

The shallow embedding below models the unified variant (lmv-tracker.js):
  - the persisted tracking record is a structure of optional fields, mirroring a
    JSON object whose keys may each be absent;
  - URLSearchParams is modelled as an association list of key value pairs, with
    get returning the first value for a key and set replacing the first
    occurrence (and deleting later duplicates of the key);
  - timestamps are Int milliseconds; JavaScript truthiness of a string is
    "present and non-empty", of a number "present and non-zero";
  - the two network calls are abstracted by an oracle FetchResult (transport
    error, or a response with its ok flag); payload construction does not
    influence any control flow and is not modelled;
  - try/catch recovery (safeExecute and the per-link / per-element catch) is
    modelled by total functions that return the fallback value, as the source
    does at every catch site.
-/

/-- The persisted / in-memory tracking record (JS object under localStorage key
lmv_tracker). Every field is optional, as on a JSON object; `uuid` is the
session identifier of the unified variant (the UTM-only variant calls it
session_id). -/
structure TrackerData where
  uuid : Option String := none
  created_at : Option Int := none
  last_updated : Option Int := none
  page_views : Option Int := none
  current_path : Option String := none
  current_title : Option String := none
  utm_source : Option String := none
  utm_medium : Option String := none
  utm_campaign : Option String := none
  utm_term : Option String := none
  utm_content : Option String := none
  fbclid : Option String := none
  gclid : Option String := none
  fbp : Option String := none
deriving DecidableEq, Repr

/-- JavaScript truthiness of an optional string: present and non-empty. -/
def truthyS : Option String → Bool
  | some s => if s = "" then false else true
  | none => false

/-- JavaScript truthiness of an optional number: present and non-zero
(NaN is outside the model). -/
def truthyI : Option Int → Bool
  | some n => if n = 0 then false else true
  | none => false

/-- The ordered list of recognized parameter names: source constant UTM_FIELDS
of the unified variant (the UTM-only variant omits the final fbp entry). -/
def UTM_FIELDS : List String :=
  ["utm_source", "utm_medium", "utm_campaign", "utm_term", "utm_content",
   "fbclid", "gclid", "fbp"]

/-- Dynamic property read `data[name]` for the recognized parameter names;
any other name is absent on the record. -/
def getField (d : TrackerData) : String → Option String
  | "utm_source" => d.utm_source
  | "utm_medium" => d.utm_medium
  | "utm_campaign" => d.utm_campaign
  | "utm_term" => d.utm_term
  | "utm_content" => d.utm_content
  | "fbclid" => d.fbclid
  | "gclid" => d.gclid
  | "fbp" => d.fbp
  | _ => none

/-- URLSearchParams.get: the value of the first pair with the given key. -/
def paramsGet (q : List (String × String)) (k : String) : Option String :=
  (q.find? (fun p => p.1 = k)).map (fun p => p.2)

/-- URLSearchParams.has: some pair carries the given key. -/
def searchParamsHas (q : List (String × String)) (k : String) : Bool :=
  q.any (fun p => p.1 = k)

/-- URLSearchParams.set: replace the value of the first pair with the given
key and drop later pairs with that key; append when the key is absent. -/
def searchParamsSet : List (String × String) → String → String → List (String × String)
  | [], k, v => [(k, v)]
  | p :: rest, k, v =>
    if p.1 = k then (k, v) :: rest.filter (fun q => ¬ q.1 = k)
    else p :: searchParamsSet rest k v

/-- The trim of JavaScript String.prototype.trim: drop whitespace from both
ends (modelled over the character list so that it evaluates by kernel
reduction). -/
def jsTrim (s : String) : String :=
  String.mk (((s.data.dropWhile fun c => c.isWhitespace).reverse.dropWhile
    fun c => c.isWhitespace).reverse)

/-- Source function extractUTMsFromURL: for each recognized name, keep the
first query value when its trim is non-empty, storing the trimmed value.
The JS guard `value && value.trim()` is equivalent to `jsTrim v ≠ ""`
since an empty string trims to itself. The function is total (the source
wraps the body in safeExecute with fallback `{}`, and no step of the body can
throw for a well-formed query). -/
def extractUTMsFromURL (search : List (String × String)) : List (String × String) :=
  UTM_FIELDS.filterMap (fun key =>
    match paramsGet search key with
    | some v => if jsTrim v = "" then none else some (key, jsTrim v)
    | none => none)

/-- Claim C5: for every query string, the UTM extractor returns a mapping
containing exactly the recognized parameter names whose first value is
non-empty after trimming, each bound to its trimmed value; unrecognized
parameters never appear in the result. (Purity and never-throwing are
reflected by the extractor being a total Lean function of its input.) -/
theorem c5_extract_exactly_recognized_trimmed (search : List (String × String))
    (k v : String) :
    (k, v) ∈ extractUTMsFromURL search ↔
      (k ∈ UTM_FIELDS ∧
        ∃ v0, paramsGet search k = some v0 ∧ jsTrim v0 ≠ "" ∧ v = jsTrim v0) := by
  unfold extractUTMsFromURL
  rw [List.mem_filterMap]
  constructor
  · rintro ⟨a, ha, hf⟩
    rcases hpg : paramsGet search a with _ | v0
    · rw [hpg] at hf
      exact absurd hf (by simp)
    · rw [hpg] at hf
      by_cases ht : jsTrim v0 = ""
      · simp [ht] at hf
      · obtain ⟨rfl, rfl⟩ : a = k ∧ jsTrim v0 = v := by
          simpa [ht] using hf
        exact ⟨ha, v0, hpg, ht, rfl⟩
  · rintro ⟨hk, v0, hpg, ht, rfl⟩
    refine ⟨k, hk, ?_⟩
    rw [hpg]
    simp [ht]

/-- Source function shouldStartNewSession: true when last_updated is falsy
(absent or zero) or more than the timeout has elapsed. -/
def shouldStartNewSession (timeoutMs nowv : Int) : Option Int → Bool
  | none => true
  | some lu => if lu = 0 then true else decide (nowv - lu > timeoutMs)

/-- Source function isValidTrackerData: the stored value is an object whose
uuid, created_at and last_updated are all truthy. -/
def isValidTrackerData : Option TrackerData → Bool
  | none => false
  | some d => truthyS d.uuid && truthyI d.created_at && truthyI d.last_updated

/-- JavaScript object-spread on one optional field: a key present on the
spread object overwrites the base value, an absent key leaves it. -/
def spreadOpt {α : Type} (base over : Option α) : Option α :=
  match over with
  | some v => some v
  | none => base

/-- The object literal built first in the create branch of the initializer:
fresh identifier, both timestamps now, one page view, current location. -/
def freshRecord (nowv : Int) (path title newUuid : String) : TrackerData :=
  { uuid := some newUuid
    created_at := some nowv
    last_updated := some nowv
    page_views := some 1
    current_path := some path
    current_title := some title }

/-- The spread `...stored` over the fresh literal: every key present on the
stored object overwrites the corresponding fresh value (this is the source
order: the stored spread comes after the fresh fields in the literal). -/
def spreadStored (fresh stored : TrackerData) : TrackerData :=
  { uuid := spreadOpt fresh.uuid stored.uuid
    created_at := spreadOpt fresh.created_at stored.created_at
    last_updated := spreadOpt fresh.last_updated stored.last_updated
    page_views := spreadOpt fresh.page_views stored.page_views
    current_path := spreadOpt fresh.current_path stored.current_path
    current_title := spreadOpt fresh.current_title stored.current_title
    utm_source := spreadOpt fresh.utm_source stored.utm_source
    utm_medium := spreadOpt fresh.utm_medium stored.utm_medium
    utm_campaign := spreadOpt fresh.utm_campaign stored.utm_campaign
    utm_term := spreadOpt fresh.utm_term stored.utm_term
    utm_content := spreadOpt fresh.utm_content stored.utm_content
    fbclid := spreadOpt fresh.fbclid stored.fbclid
    gclid := spreadOpt fresh.gclid stored.gclid
    fbp := spreadOpt fresh.fbp stored.fbp }

/-- The spread `...utms` / Object.assign(trackerData, utms): each recognized
key present in the extracted mapping overwrites its field. (The extracted
mapping only ever carries recognized keys, see the C5 theorem, so spreading
it touches at most these eight fields.) -/
def applyUTMs (d : TrackerData) (utms : List (String × String)) : TrackerData :=
  { d with
    utm_source := spreadOpt d.utm_source (paramsGet utms "utm_source")
    utm_medium := spreadOpt d.utm_medium (paramsGet utms "utm_medium")
    utm_campaign := spreadOpt d.utm_campaign (paramsGet utms "utm_campaign")
    utm_term := spreadOpt d.utm_term (paramsGet utms "utm_term")
    utm_content := spreadOpt d.utm_content (paramsGet utms "utm_content")
    fbclid := spreadOpt d.fbclid (paramsGet utms "fbclid")
    gclid := spreadOpt d.gclid (paramsGet utms "gclid")
    fbp := spreadOpt d.fbp (paramsGet utms "fbp") }

/-- The fbp-cookie capture after the session branch: when the cookie is
truthy and the record fbp is falsy, store the cookie value. -/
def captureFbp (fbpCookie : Option String) (d : TrackerData) : TrackerData :=
  if truthyS fbpCookie && !truthyS d.fbp then { d with fbp := fbpCookie } else d

/-- The create branch of the initializer: build the fresh literal, spread the
stored object over it when the stored object is valid, then spread the
extracted UTMs. -/
def createRecord (nowv : Int) (path title newUuid : String)
    (stored : Option TrackerData) (utms : List (String × String)) : TrackerData :=
  let fresh := freshRecord nowv path title newUuid
  let base :=
    match stored with
    | some s => if isValidTrackerData (some s) then spreadStored fresh s else fresh
    | none => fresh
  applyUTMs base utms

/-- The continue branch of the initializer: keep the stored object, refresh
last_updated and location, bump page_views (with the `|| 0` default), and
merge the extracted UTMs when any were extracted. -/
def continueRecord (nowv : Int) (path title : String) (stored : TrackerData)
    (utms : List (String × String)) : TrackerData :=
  let d := { stored with
    last_updated := some nowv
    page_views := some (stored.page_views.getD 0 + 1)
    current_path := some path
    current_title := some title }
  if utms.isEmpty then d else applyUTMs d utms

/-- The session update performed by one consented, first run of the source
function initializeTracker (renamed here): pick create or continue from
validity and the timeout rule, then capture the fbp cookie. The result is
the record stored back and exposed in memory. -/
def sessionStep (timeoutMs nowv : Int) (path title newUuid : String)
    (fbpCookie : Option String) (stored : Option TrackerData)
    (utms : List (String × String)) : TrackerData :=
  let d :=
    match stored with
    | none => createRecord nowv path title newUuid none utms
    | some s =>
      if !isValidTrackerData (some s) || shouldStartNewSession timeoutMs nowv s.last_updated then
        createRecord nowv path title newUuid (some s) utms
      else continueRecord nowv path title s utms
  captureFbp fbpCookie d

/-- A concrete valid stored record whose last_updated lies timeout + 1 ms in
the past at the load instant used in the C1 evaluation. -/
def c1stored : TrackerData :=
  { uuid := some "old-uuid"
    created_at := some 1000
    last_updated := some 1000
    page_views := some 5
    current_path := some "/old"
    current_title := some "Old"
    utm_source := some "stale" }

/-- Claim C1 (code bug): at a load with now = last_updated + timeout + 1 ms on
a valid stored record, the create branch is taken (the record is expired and
valid), yet the spread `...stored` placed after the fresh fields makes the
stored uuid, created_at, last_updated and page_views overwrite the fresh
ones: the produced record keeps the OLD identifier and stale timestamps
instead of a new identifier with created_at = last_updated = now and
page_views = 1 as the claim (and the source header documentation) requires.
Timeout 30 minutes = 1800000 ms; now = 1801001 = 1000 + 1800000 + 1. -/
theorem c1_expired_record_keeps_stored_identity :
    isValidTrackerData (some c1stored) = true ∧
    shouldStartNewSession 1800000 1801001 (some 1000) = true ∧
    (sessionStep 1800000 1801001 "/p" "T" "fresh-uuid" none (some c1stored) []).uuid
      = some "old-uuid" ∧
    (sessionStep 1800000 1801001 "/p" "T" "fresh-uuid" none (some c1stored) []).created_at
      = some 1000 ∧
    (sessionStep 1800000 1801001 "/p" "T" "fresh-uuid" none (some c1stored) []).last_updated
      = some 1000 ∧
    (sessionStep 1800000 1801001 "/p" "T" "fresh-uuid" none (some c1stored) []).page_views
      = some 5 := by
  decide

/-- Claim C2: on a valid, unexpired stored record, the load keeps uuid and
created_at, sets last_updated to now, increments page_views (with the source
`|| 0` default for an absent counter), and merges the extracted UTMs key by
key: each extracted key overwrites only its own field and every field not
re-supplied is retained. The fbp cookie argument is none so the merge is
exactly the URL merge. -/
theorem c2_continue_merges_sticky (timeoutMs nowv : Int)
    (path title newUuid : String) (stored : TrackerData)
    (utms : List (String × String))
    (hval : isValidTrackerData (some stored) = true)
    (hsess : shouldStartNewSession timeoutMs nowv stored.last_updated = false) :
    (sessionStep timeoutMs nowv path title newUuid none (some stored) utms).uuid
        = stored.uuid ∧
    (sessionStep timeoutMs nowv path title newUuid none (some stored) utms).created_at
        = stored.created_at ∧
    (sessionStep timeoutMs nowv path title newUuid none (some stored) utms).last_updated
        = some nowv ∧
    (sessionStep timeoutMs nowv path title newUuid none (some stored) utms).page_views
        = some (stored.page_views.getD 0 + 1) ∧
    (sessionStep timeoutMs nowv path title newUuid none (some stored) utms).utm_source
        = spreadOpt stored.utm_source (paramsGet utms "utm_source") ∧
    (sessionStep timeoutMs nowv path title newUuid none (some stored) utms).utm_medium
        = spreadOpt stored.utm_medium (paramsGet utms "utm_medium") ∧
    (sessionStep timeoutMs nowv path title newUuid none (some stored) utms).utm_campaign
        = spreadOpt stored.utm_campaign (paramsGet utms "utm_campaign") ∧
    (sessionStep timeoutMs nowv path title newUuid none (some stored) utms).utm_term
        = spreadOpt stored.utm_term (paramsGet utms "utm_term") ∧
    (sessionStep timeoutMs nowv path title newUuid none (some stored) utms).utm_content
        = spreadOpt stored.utm_content (paramsGet utms "utm_content") ∧
    (sessionStep timeoutMs nowv path title newUuid none (some stored) utms).fbclid
        = spreadOpt stored.fbclid (paramsGet utms "fbclid") ∧
    (sessionStep timeoutMs nowv path title newUuid none (some stored) utms).gclid
        = spreadOpt stored.gclid (paramsGet utms "gclid") ∧
    (sessionStep timeoutMs nowv path title newUuid none (some stored) utms).fbp
        = spreadOpt stored.fbp (paramsGet utms "fbp") := by
  have hcond : (!isValidTrackerData (some stored)
      || shouldStartNewSession timeoutMs nowv stored.last_updated) = false := by
    rw [hval, hsess]
    rfl
  unfold sessionStep
  dsimp only
  rw [hcond]
  simp only [Bool.false_eq_true, if_false]
  unfold continueRecord captureFbp truthyS
  by_cases hemp : utms.isEmpty
  · have hnil : utms = [] := List.isEmpty_iff.mp hemp
    subst hnil
    simp [paramsGet, spreadOpt]
  · simp only [hemp, if_false, Bool.false_and]
    unfold applyUTMs
    simp [spreadOpt]

/-- Concrete stored record for the C2 witness: the merge-law example of the
spec, with utm_source old and utm_medium m. -/
def c2stored : TrackerData :=
  { uuid := some "id1"
    created_at := some 100
    last_updated := some 100
    page_views := some 3
    utm_source := some "old"
    utm_medium := some "m" }

/-- Witness for C2 at a concrete unexpired load: the identifier is kept,
page_views goes from 3 to 4, the URL utm_source x overwrites old, and the
stored utm_medium m is retained. -/
theorem c2_continue_merges_sticky_witness :
    (sessionStep 1800000 200 "/p" "T" "new" none (some c2stored)
        [("utm_source", "x")]).uuid = some "id1" ∧
    (sessionStep 1800000 200 "/p" "T" "new" none (some c2stored)
        [("utm_source", "x")]).page_views = some 4 ∧
    (sessionStep 1800000 200 "/p" "T" "new" none (some c2stored)
        [("utm_source", "x")]).utm_source = some "x" ∧
    (sessionStep 1800000 200 "/p" "T" "new" none (some c2stored)
        [("utm_source", "x")]).utm_medium = some "m" := by
  obtain ⟨h1, h2, h3, h4, h5, h6, h7⟩ :=
    c2_continue_merges_sticky 1800000 200 "/p" "T" "new" c2stored
      [("utm_source", "x")] (by decide) (by decide)
  refine ⟨?_, ?_, ?_, ?_⟩
  · rw [h1]
    decide
  · rw [h4]
    decide
  · rw [h5]
    decide
  · rw [h6]
    decide

/-- Reading a recognized field from the UTM-merged record: the extracted
value when present, otherwise the previous value. -/
theorem getField_applyUTMs (d : TrackerData) (utms : List (String × String))
    (name : String) (hmem : name ∈ UTM_FIELDS) :
    getField (applyUTMs d utms) name
      = spreadOpt (getField d name) (paramsGet utms name) := by
  simp only [UTM_FIELDS, List.mem_cons, List.not_mem_nil, or_false] at hmem
  rcases hmem with rfl | rfl | rfl | rfl | rfl | rfl | rfl | rfl <;> rfl

/-- Reading a recognized field after the stored spread: the stored value when
present, otherwise the fresh value. -/
theorem getField_spreadStored (fresh stored : TrackerData) (name : String)
    (hmem : name ∈ UTM_FIELDS) :
    getField (spreadStored fresh stored) name
      = spreadOpt (getField fresh name) (getField stored name) := by
  simp only [UTM_FIELDS, List.mem_cons, List.not_mem_nil, or_false] at hmem
  rcases hmem with rfl | rfl | rfl | rfl | rfl | rfl | rfl | rfl <;> rfl

/-- The fresh literal carries no UTM field. -/
theorem getField_freshRecord (nowv : Int) (path title newUuid name : String)
    (hmem : name ∈ UTM_FIELDS) :
    getField (freshRecord nowv path title newUuid) name = none := by
  simp only [UTM_FIELDS, List.mem_cons, List.not_mem_nil, or_false] at hmem
  rcases hmem with rfl | rfl | rfl | rfl | rfl | rfl | rfl | rfl <;> rfl

/-- The continue-branch base update (timestamps, counter, location) leaves
every recognized field unchanged. -/
theorem getField_continueBase (stored : TrackerData) (nowv : Int)
    (path title name : String) (hmem : name ∈ UTM_FIELDS) :
    getField { stored with
      last_updated := some nowv
      page_views := some (stored.page_views.getD 0 + 1)
      current_path := some path
      current_title := some title } name = getField stored name := by
  simp only [UTM_FIELDS, List.mem_cons, List.not_mem_nil, or_false] at hmem
  rcases hmem with rfl | rfl | rfl | rfl | rfl | rfl | rfl | rfl <;> rfl

/-- The fbp-cookie capture never clears a recognized field that holds a
non-empty value: for a non-fbp field it writes nothing, and for fbp the
guard requires the current fbp to be falsy. -/
theorem getField_captureFbp (fb : Option String) (d : TrackerData)
    (name v : String) (hmem : name ∈ UTM_FIELDS) (hv : v ≠ "")
    (hset : getField d name = some v) :
    getField (captureFbp fb d) name = some v := by
  simp only [UTM_FIELDS, List.mem_cons, List.not_mem_nil, or_false] at hmem
  rcases hmem with rfl | rfl | rfl | rfl | rfl | rfl | rfl | rfl
  · unfold captureFbp
    split <;> exact hset
  · unfold captureFbp
    split <;> exact hset
  · unfold captureFbp
    split <;> exact hset
  · unfold captureFbp
    split <;> exact hset
  · unfold captureFbp
    split <;> exact hset
  · unfold captureFbp
    split <;> exact hset
  · unfold captureFbp
    split <;> exact hset
  · have hfbp : d.fbp = some v := hset
    simp [captureFbp, truthyS, hfbp, hv, hset]

/-- Claim C4: for every valid stored record and every load, a UTM field set
to a non-empty value in the stored record is preserved verbatim whenever the
current URL does not supply a value for that same field; a URL with zero
recognized parameters therefore leaves every stored UTM field unchanged in
the persisted record. -/
theorem c4_stored_utm_never_cleared (timeoutMs nowv : Int)
    (path title newUuid : String) (fbpCookie : Option String)
    (stored : TrackerData) (search : List (String × String)) (name v : String)
    (hval : isValidTrackerData (some stored) = true)
    (hmem : name ∈ UTM_FIELDS)
    (hset : getField stored name = some v) (hv : v ≠ "")
    (hnone : paramsGet (extractUTMsFromURL search) name = none) :
    getField (sessionStep timeoutMs nowv path title newUuid fbpCookie
      (some stored) (extractUTMsFromURL search)) name = some v := by
  unfold sessionStep
  dsimp only
  by_cases hc : (!isValidTrackerData (some stored)
      || shouldStartNewSession timeoutMs nowv stored.last_updated) = true
  · simp only [hc, if_true]
    refine getField_captureFbp _ _ _ _ hmem hv ?_
    unfold createRecord
    dsimp only
    rw [getField_applyUTMs _ _ _ hmem, hnone]
    show getField (if isValidTrackerData (some stored) = true
      then spreadStored (freshRecord nowv path title newUuid) stored
      else freshRecord nowv path title newUuid) name = some v
    rw [if_pos hval, getField_spreadStored _ _ _ hmem, hset]
    rfl
  · simp only [Bool.not_eq_true] at hc
    simp only [hc, Bool.false_eq_true, if_false]
    refine getField_captureFbp _ _ _ _ hmem hv ?_
    unfold continueRecord
    dsimp only
    by_cases hemp : (extractUTMsFromURL search).isEmpty
    · rw [if_pos hemp, getField_continueBase _ _ _ _ _ hmem, hset]
    · rw [if_neg hemp, getField_applyUTMs _ _ _ hmem, hnone]
      show getField _ name = some v
      rw [getField_continueBase _ _ _ _ _ hmem, hset]

/-- Concrete stored record for the C4 witness. -/
def c4stored : TrackerData :=
  { uuid := some "id4"
    created_at := some 100
    last_updated := some 100
    page_views := some 2
    utm_medium := some "m" }

/-- Witness for C4: a load whose URL supplies only utm_source keeps the
stored utm_medium value m. -/
theorem c4_stored_utm_never_cleared_witness :
    getField (sessionStep 1800000 200 "/p" "T" "new2" none (some c4stored)
      (extractUTMsFromURL [("utm_source", "x")])) "utm_medium" = some "m" :=
  c4_stored_utm_never_cleared 1800000 200 "/p" "T" "new2" none c4stored
    [("utm_source", "x")] "utm_medium" "m" (by decide) (by decide) (by decide)
    (by decide) (by decide)

/-- A link href as resolved by `new URL`: the hostname and the query pairs.
The CSS selection in the source (`a[href*=targetDomain]`,
`a[href^="https://" ++ paymentDomain]`) only pre-filters which anchors are
examined; since a resolved href always contains its hostname as a substring,
every link the branch guards would modify is selected, and selected links
whose hostname matches neither domain are left unchanged — so the per-link
transformation below applied to every parseable link reproduces the source
behaviour. Links whose href fails to parse are skipped unchanged by the
source (per-link catch) and are outside this list. -/
structure QueryUrl where
  host : String
  query : List (String × String)
deriving DecidableEq, Repr

/-- Coercion URLSearchParams.set applies to a JS undefined value (an absent
uuid property stringifies as "undefined"). -/
def optStr (o : Option String) : String := o.getD "undefined"

/-- One step of the UTM loop inside the target-domain branch of
decorateLinks: set the field value when the record field is truthy and the
key is not already present. -/
def addOneUTM (d : TrackerData) (q : List (String × String)) (name : String) :
    List (String × String) :=
  if truthyS (getField d name) && !searchParamsHas q name then
    searchParamsSet q name (optStr (getField d name))
  else q

/-- The UTM loop of the target-domain branch, over the recognized names. -/
def addUTMParams (d : TrackerData) (q : List (String × String)) :
    List (String × String) :=
  UTM_FIELDS.foldl (addOneUTM d) q

/-- The fbp-cookie step of the target-domain branch: set fbp from the cookie
when the cookie is truthy and fbp is not already in the query. -/
def addFbpParam (fbpCookie : Option String) (q : List (String × String)) :
    List (String × String) :=
  if truthyS fbpCookie && !searchParamsHas q "fbp" then
    searchParamsSet q "fbp" (optStr fbpCookie)
  else q

/-- The per-link body of decorateLinks, returning the updated link and
whether the source counted it as decorated. When the in-memory record is
absent (null), reading trackerData.uuid throws and the per-link catch leaves
the link unchanged and uncounted. -/
def decorateLinkC (target payment : String) (td : Option TrackerData)
    (fbpCookie : Option String) (u : QueryUrl) : QueryUrl × Bool :=
  if u.host = target then
    if !searchParamsHas u.query "uuid" then
      match td with
      | none => (u, false)
      | some d =>
        let q1 := searchParamsSet u.query "uuid" (optStr d.uuid)
        let q2 := addUTMParams d q1
        let q3 := addFbpParam fbpCookie q2
        ({ u with query := q3 }, true)
    else (u, false)
  else if u.host = payment then
    if !searchParamsHas u.query "client_reference_id" then
      match td with
      | none => (u, false)
      | some d =>
        ({ u with query := searchParamsSet u.query "client_reference_id" (optStr d.uuid) },
          true)
    else (u, false)
  else (u, false)

/-- The updated link produced by one pass of decorateLinks over one link. -/
def decorateLink (target payment : String) (td : Option TrackerData)
    (fbpCookie : Option String) (u : QueryUrl) : QueryUrl :=
  (decorateLinkC target payment td fbpCookie u).1

/-- Source function decorateLinks over the whole document: disabled returns
zero with no change; otherwise every link is processed and the count of
links whose href was assigned is returned. -/
def decorateLinks (enable : Bool) (target payment : String)
    (td : Option TrackerData) (fbpCookie : Option String)
    (links : List QueryUrl) : List QueryUrl × Nat :=
  if !enable then (links, 0)
  else (links.map (decorateLink target payment td fbpCookie),
    links.countP (fun u => (decorateLinkC target payment td fbpCookie u).2))

/-- has on a cons unfolds to the head test or the tail has. -/
theorem searchParamsHas_cons (p : String × String) (rest : List (String × String))
    (k : String) :
    searchParamsHas (p :: rest) k = (decide (p.1 = k) || searchParamsHas rest k) := rfl

/-- Filtering out one key does not change has of a different key. -/
theorem has_filter_ne (q : List (String × String)) (k k2 : String) (hne : k2 ≠ k) :
    searchParamsHas (q.filter fun p => ¬ p.1 = k) k2 = searchParamsHas q k2 := by
  induction q with
  | nil => rfl
  | cons p rest ih =>
    simp only [decide_not] at ih
    by_cases hp : p.1 = k
    · have hkk2 : ¬ k = k2 := Ne.symm hne
      simp [List.filter_cons, hp, hkk2, searchParamsHas_cons, ih]
    · simp [List.filter_cons, hp, searchParamsHas_cons, ih]

/-- Setting a key makes has of that key true. -/
theorem has_searchParamsSet_self (q : List (String × String)) (k v : String) :
    searchParamsHas (searchParamsSet q k v) k = true := by
  induction q with
  | nil => simp [searchParamsSet, searchParamsHas]
  | cons p rest ih =>
    by_cases hp : p.1 = k
    · simp only [searchParamsSet, hp, if_true]
      rw [searchParamsHas_cons]
      simp
    · simp only [searchParamsSet, hp, if_false]
      rw [searchParamsHas_cons, ih]
      simp

/-- Setting one key does not change has of a different key. -/
theorem has_searchParamsSet_other (q : List (String × String)) (k v k2 : String)
    (hne : k2 ≠ k) :
    searchParamsHas (searchParamsSet q k v) k2 = searchParamsHas q k2 := by
  induction q with
  | nil =>
    simp [searchParamsSet, searchParamsHas, Ne.symm hne]
  | cons p rest ih =>
    by_cases hp : p.1 = k
    · simp only [searchParamsSet, hp, if_true]
      rw [searchParamsHas_cons, searchParamsHas_cons, has_filter_ne rest k k2 hne]
      have hkk2 : ¬ k = k2 := fun h => hne h.symm
      have hp2 : ¬ p.1 = k2 := by
        rw [hp]
        exact hkk2
      simp [hkk2, hp2]
    · simp only [searchParamsSet, hp, if_false]
      rw [searchParamsHas_cons, searchParamsHas_cons, ih]

/-- The UTM-loop step preserves a key already present. -/
theorem has_addOneUTM (d : TrackerData) (q : List (String × String))
    (name k : String) (h : searchParamsHas q k = true) :
    searchParamsHas (addOneUTM d q name) k = true := by
  unfold addOneUTM
  split
  · by_cases hnk : k = name
    · rw [hnk]
      exact has_searchParamsSet_self q name _
    · rw [has_searchParamsSet_other q name _ k hnk]
      exact h
  · exact h

/-- The UTM loop preserves a key already present. -/
theorem has_addUTMParams (d : TrackerData) (q : List (String × String))
    (k : String) (h : searchParamsHas q k = true) :
    searchParamsHas (addUTMParams d q) k = true := by
  unfold addUTMParams
  generalize UTM_FIELDS = names
  induction names generalizing q with
  | nil => exact h
  | cons n ns ih =>
    exact ih (addOneUTM d q n) (has_addOneUTM d q n k h)

/-- The fbp step preserves a key already present. -/
theorem has_addFbpParam (fb : Option String) (q : List (String × String))
    (k : String) (h : searchParamsHas q k = true) :
    searchParamsHas (addFbpParam fb q) k = true := by
  unfold addFbpParam
  split
  · by_cases hnk : k = "fbp"
    · rw [hnk]
      exact has_searchParamsSet_self q "fbp" _
    · rw [has_searchParamsSet_other q "fbp" _ k hnk]
      exact h
  · exact h

/-- A target-domain link whose query already carries the uuid key is
returned unchanged and uncounted. -/
theorem decorateLinkC_target_has (target payment : String)
    (td : Option TrackerData) (fb : Option String) (u : QueryUrl)
    (h1 : u.host = target) (h2 : searchParamsHas u.query "uuid" = true) :
    decorateLinkC target payment td fb u = (u, false) := by
  unfold decorateLinkC
  simp [h1, h2]

/-- A payment-domain link (not matching the target domain) whose query
already carries the client_reference_id key is returned unchanged and
uncounted. -/
theorem decorateLinkC_payment_has (target payment : String)
    (td : Option TrackerData) (fb : Option String) (u : QueryUrl)
    (h1 : ¬ u.host = target) (h2 : u.host = payment)
    (h3 : searchParamsHas u.query "client_reference_id" = true) :
    decorateLinkC target payment td fb u = (u, false) := by
  unfold decorateLinkC
  rw [if_neg h1, if_pos h2]
  simp [h3]

/-- One pass of the per-link decoration is idempotent. -/
theorem decorateLink_idem (target payment : String) (td : Option TrackerData)
    (fb : Option String) (u : QueryUrl) :
    decorateLink target payment td fb (decorateLink target payment td fb u)
      = decorateLink target payment td fb u := by
  by_cases ht : u.host = target
  · by_cases hh : searchParamsHas u.query "uuid" = true
    · have hu : decorateLink target payment td fb u = u :=
        congrArg Prod.fst (decorateLinkC_target_has target payment td fb u ht hh)
      rw [hu, hu]
    · cases td with
      | none =>
        have hu : decorateLink target payment none fb u = u := by
          unfold decorateLink decorateLinkC
          simp [ht, hh]
        rw [hu, hu]
      | some d =>
        have hfu : decorateLink target payment (some d) fb u =
            { u with query := addFbpParam fb (addUTMParams d
              (searchParamsSet u.query "uuid" (optStr d.uuid))) } := by
          unfold decorateLink decorateLinkC
          simp [ht, hh]
        rw [hfu]
        have hhas : searchParamsHas (addFbpParam fb (addUTMParams d
            (searchParamsSet u.query "uuid" (optStr d.uuid)))) "uuid" = true :=
          has_addFbpParam _ _ _ (has_addUTMParams _ _ _
            (has_searchParamsSet_self _ _ _))
        exact congrArg Prod.fst (decorateLinkC_target_has target payment
          (some d) fb ⟨u.host, addFbpParam fb (addUTMParams d
            (searchParamsSet u.query "uuid" (optStr d.uuid)))⟩ ht hhas)
  · by_cases hp0 : u.host = payment
    · by_cases hcr : searchParamsHas u.query "client_reference_id" = true
      · have hu : decorateLink target payment td fb u = u :=
          congrArg Prod.fst (decorateLinkC_payment_has target payment td fb u ht hp0 hcr)
        rw [hu, hu]
      · cases td with
        | none =>
          have hu : decorateLink target payment none fb u = u := by
            unfold decorateLink decorateLinkC
            rw [if_neg ht, if_pos hp0]
            simp [hcr]
          rw [hu, hu]
        | some d =>
          have hfu : decorateLink target payment (some d) fb u =
              { u with query := (searchParamsSet u.query "client_reference_id" (optStr d.uuid)) } := by
            unfold decorateLink decorateLinkC
            rw [if_neg ht, if_pos hp0]
            simp [hcr]
          rw [hfu]
          exact congrArg Prod.fst (decorateLinkC_payment_has target payment
            (some d) fb ⟨u.host, searchParamsSet u.query "client_reference_id" (optStr d.uuid)⟩
            ht hp0 (has_searchParamsSet_self _ _ _))
    · have hu : decorateLink target payment td fb u = u := by
        unfold decorateLink decorateLinkC
        rw [if_neg ht, if_neg hp0]
      rw [hu, hu]

/-- Claim C3: a link whose query already carries the key under which the
decorator writes the session identifier for its domain (uuid on the target
domain, client_reference_id on the payment domain) is never modified, even
when its UTM parameters differ from the current record (no branch reads
them); consequently the per-link decoration is idempotent and running
decorateLinks twice on an unchanged document yields exactly the same link
hrefs as running it once, with no key set twice. -/
theorem c3_decorator_skips_decorated_and_is_idempotent (target payment : String)
    (td : Option TrackerData) (fb : Option String) (u : QueryUrl)
    (enable : Bool) (links : List QueryUrl) :
    (u.host = target → searchParamsHas u.query "uuid" = true →
      decorateLink target payment td fb u = u) ∧
    (¬ u.host = target → u.host = payment →
      searchParamsHas u.query "client_reference_id" = true →
      decorateLink target payment td fb u = u) ∧
    decorateLink target payment td fb (decorateLink target payment td fb u)
      = decorateLink target payment td fb u ∧
    (decorateLinks enable target payment td fb
        (decorateLinks enable target payment td fb links).1).1
      = (decorateLinks enable target payment td fb links).1 := by
  refine ⟨?_, ?_, decorateLink_idem target payment td fb u, ?_⟩
  · intro h1 h2
    exact congrArg Prod.fst (decorateLinkC_target_has target payment td fb u h1 h2)
  · intro h1 h2 h3
    exact congrArg Prod.fst (decorateLinkC_payment_has target payment td fb u h1 h2 h3)
  · cases enable with
    | false => rfl
    | true =>
      simp only [decorateLinks, Bool.not_true, Bool.false_eq_true, if_false,
        List.map_map]
      exact List.map_congr_left (fun a _ => decorateLink_idem target payment td fb a)

/-- Witness for C3: a target-domain link already carrying uuid and a
payment-domain link already carrying client_reference_id are both returned
unchanged (with the source default domains and an absent record). -/
theorem c3_decorator_skips_decorated_witness :
    decorateLink "app.lamainverte.ca" "paiement.lamainverte.ca" none none
      ⟨"app.lamainverte.ca", [("uuid", "abc")]⟩
      = ⟨"app.lamainverte.ca", [("uuid", "abc")]⟩ ∧
    decorateLink "app.lamainverte.ca" "paiement.lamainverte.ca" none none
      ⟨"paiement.lamainverte.ca", [("client_reference_id", "abc")]⟩
      = ⟨"paiement.lamainverte.ca", [("client_reference_id", "abc")]⟩ := by
  constructor
  · exact (c3_decorator_skips_decorated_and_is_idempotent
      "app.lamainverte.ca" "paiement.lamainverte.ca" none none
      ⟨"app.lamainverte.ca", [("uuid", "abc")]⟩ true []).1 rfl (by decide)
  · exact (c3_decorator_skips_decorated_and_is_idempotent
      "app.lamainverte.ca" "paiement.lamainverte.ca" none none
      ⟨"paiement.lamainverte.ca", [("client_reference_id", "abc")]⟩ true []).2.1
      (by decide) rfl (by decide)

/-- A form control as read by the populator: identifier, tag name, input
type, current value, and for select elements the (value, label) options. -/
structure FormControl where
  id : String
  tag : String
  ctype : String
  value : String
  options : List (String × String)
deriving DecidableEq, Repr

/-- The per-element body of populateUTMFields: write the value into a
text-like input or textarea, select the matching option of a select, and
skip every other element; the flag reports whether the source incremented
its populated counter. -/
def populateControl (v : String) (c : FormControl) : FormControl × Bool :=
  if c.tag = "INPUT" ∨ c.tag = "TEXTAREA" then
    if c.ctype = "hidden" ∨ c.ctype = "text" ∨ c.ctype = "" then
      ({ c with value := v }, true)
    else (c, false)
  else if c.tag = "SELECT" then
    match c.options.find? (fun o => o.1 = v ∨ o.2 = v) with
    | some o => ({ c with value := o.1 }, true)
    | none => (c, false)
  else (c, false)

/-- One querySelectorAll pass for one field name: every element whose
identifier equals the name is populated; the count of populated elements is
returned. -/
def populateForName (name v : String) (doc : List FormControl) :
    List FormControl × Nat :=
  (doc.map (fun c => if c.id = name then (populateControl v c).1 else c),
   doc.countP (fun c => c.id = name && (populateControl v c).2))

/-- Source function populateUTMFields: disabled returns zero with no change;
with an absent record, the very first dynamic read trackerData[param] throws
and safeExecute returns the fallback zero before any element is touched;
otherwise each truthy recognized field populates the matching elements, and
finally a truthy fbp cookie populates the elements with identifier fbp. -/
def populateUTMFields (enable : Bool) (td : Option TrackerData)
    (fbpCookie : Option String) (doc : List FormControl) :
    List FormControl × Nat :=
  if !enable then (doc, 0)
  else
    match td with
    | none => (doc, 0)
    | some d =>
      let step := fun (acc : List FormControl × Nat) (name : String) =>
        match getField d name with
        | some v =>
          if v = "" then acc
          else ((populateForName name v acc.1).1, acc.2 + (populateForName name v acc.1).2)
        | none => acc
      let r1 := UTM_FIELDS.foldl step (doc, 0)
      match fbpCookie with
      | some v =>
        if v = "" then r1
        else ((populateForName "fbp" v r1.1).1, r1.2 + (populateForName "fbp" v r1.1).2)
      | none => r1

/-- Claim C10: invoking the exposed refreshLinks (decorateLinks) or
refreshFields (populateUTMFields) operations while the in-memory record is
absent never propagates an exception (both functions are total here, as in
the source every throw is caught): both return a count of zero and leave
every link and every form control unchanged. -/
theorem c10_refresh_without_record_is_noop (enable : Bool)
    (target payment : String) (fbpCookie : Option String)
    (links : List QueryUrl) (doc : List FormControl) :
    decorateLinks enable target payment none fbpCookie links = (links, 0) ∧
    populateUTMFields enable none fbpCookie doc = (doc, 0) := by
  constructor
  · unfold decorateLinks
    cases enable with
    | false => rfl
    | true =>
      simp only [Bool.not_true, Bool.false_eq_true, if_false]
      have hone : ∀ u : QueryUrl, decorateLink target payment none fbpCookie u = u := by
        intro u
        unfold decorateLink decorateLinkC
        by_cases ht : u.host = target
        · rw [if_pos ht]
          by_cases hh : searchParamsHas u.query "uuid" = true
          · simp [hh]
          · simp [hh]
        · rw [if_neg ht]
          by_cases hp0 : u.host = payment
          · rw [if_pos hp0]
            by_cases hc : searchParamsHas u.query "client_reference_id" = true
            · simp [hc]
            · simp [hc]
          · rw [if_neg hp0]
      have hflag : ∀ u : QueryUrl,
          (decorateLinkC target payment none fbpCookie u).2 = false := by
        intro u
        unfold decorateLinkC
        by_cases ht : u.host = target
        · rw [if_pos ht]
          by_cases hh : searchParamsHas u.query "uuid" = true
          · simp [hh]
          · simp [hh]
        · rw [if_neg ht]
          by_cases hp0 : u.host = payment
          · rw [if_pos hp0]
            by_cases hc : searchParamsHas u.query "client_reference_id" = true
            · simp [hc]
            · simp [hc]
          · rw [if_neg hp0]
      rw [List.map_congr_left (fun a _ => hone a),
        List.countP_eq_length_filter, List.filter_congr (fun a _ => hflag a)]
      simp
  · unfold populateUTMFields
    cases enable with
    | false => rfl
    | true => rfl

/-- The configuration object (source defaults of the unified variant),
read once at startup. -/
structure Config where
  targetDomain : String := "app.lamainverte.ca"
  paymentDomain : String := "paiement.lamainverte.ca"
  sessionTimeoutMin : Int := 30
  enablePageViewTracking : Bool := true
  enableLinkDecoration : Bool := true
  enableFormPopulation : Bool := true
  requireConsent : Bool := false
deriving DecidableEq, Repr

/-- Source constant SESSION_TIMEOUT_MS = config.sessionTimeout * 60 * 1000. -/
def SESSION_TIMEOUT_MS (cfg : Config) : Int := cfg.sessionTimeoutMin * 60 * 1000

/-- The two localStorage slots the tracker uses: the tracking record (key
lmv_tracker, stored parsed) and the consent value (key consentStorageKey).
A read failure is an absent value, as safeExecute makes it. -/
structure Storage where
  tracker : Option TrackerData := none
  consent : Option String := none
deriving DecidableEq, Repr

/-- The module-level mutable state: trackerData, isInitialized (initDone
here), consentGiven and pendingInitialization (pendingInit here). -/
structure TrackerState where
  trackerData : Option TrackerData := none
  initDone : Bool := false
  consentGiven : Bool := false
  pendingInit : Bool := false
deriving DecidableEq, Repr

/-- Outcome of one fetch: a transport error (the promise rejects) or a
response carrying its HTTP-level ok flag. -/
inductive FetchResult
  | err
  | resp (ok : Bool)
deriving DecidableEq, Repr

/-- The page environment of one load: clock, query string, location, the
identifier the uuid generator would produce, the fbp cookie, the outcome the
network would give the session call, and the document content. -/
structure Env where
  nowv : Int
  search : List (String × String)
  path : String
  title : String
  newUuid : String
  fbpCookie : Option String
  net1 : FetchResult
  links : List QueryUrl
  controls : List FormControl

/-- Source function createOrUpdateSession, return value only: reporting
disabled short-circuits to true without a request; otherwise a transport
error or a non-ok response yields false and an ok response true. Payload
construction affects no control flow and is not modelled. -/
def createOrUpdateSession (enable : Bool) (net : FetchResult) : Bool :=
  if !enable then true
  else
    match net with
    | FetchResult.err => false
    | FetchResult.resp ok => ok

/-- The reporting sequence of the initializer: whether the session request
was issued (exactly when reporting is enabled) and whether the page-view
request was issued (logPageViewEvent is called only when
createOrUpdateSession returned true, and itself only issues a request when
reporting is enabled). -/
def reportingPhase (enable : Bool) (net1 : FetchResult) : Bool × Bool :=
  let sessionCreated := createOrUpdateSession enable net1
  (enable, sessionCreated && enable)

/-- Source function checkConsent, return value: consent not required means
open; otherwise open exactly when the stored consent value is the literal
string true. -/
def checkConsentVal (cfg : Config) (sto : Storage) : Bool :=
  if !cfg.requireConsent then true
  else decide (sto.consent = some "true")

/-- The observable outcome of one initializer or giveConsent step: new
module state, new storage, whether each of the two requests was issued, the
document after decoration and population with the two counters, and the
value the call returned. -/
structure InitResult where
  state : TrackerState
  storage : Storage
  call1Issued : Bool
  call2Issued : Bool
  decorated : List QueryUrl
  populated : List FormControl
  decoratedCount : Nat
  populatedCount : Nat
  returned : Option TrackerData

/-- Source function initializeTracker (renamed initTracker here): an
already-initialized tracker returns the in-memory record at once; a closed
consent gate records the pending flag and returns null; otherwise the
session step runs, the record is persisted, the two reporting calls run
(the second gated on the first), and decoration and population run over the
document. The mutation observer arms after this and is outside the model. -/
def initTracker (cfg : Config) (env : Env) (st : TrackerState) (sto : Storage) :
    InitResult :=
  if st.initDone then
    { state := st, storage := sto, call1Issued := false, call2Issued := false,
      decorated := env.links, populated := env.controls,
      decoratedCount := 0, populatedCount := 0, returned := st.trackerData }
  else
    let consent := checkConsentVal cfg sto
    if !consent then
      { state := { st with consentGiven := consent, pendingInit := true },
        storage := sto, call1Issued := false, call2Issued := false,
        decorated := env.links, populated := env.controls,
        decoratedCount := 0, populatedCount := 0, returned := none }
    else
      let d := sessionStep (SESSION_TIMEOUT_MS cfg) env.nowv env.path env.title
        env.newUuid env.fbpCookie sto.tracker (extractUTMsFromURL env.search)
      let rep := reportingPhase cfg.enablePageViewTracking env.net1
      let dec := decorateLinks cfg.enableLinkDecoration cfg.targetDomain
        cfg.paymentDomain (some d) env.fbpCookie env.links
      let pop := populateUTMFields cfg.enableFormPopulation (some d)
        env.fbpCookie env.controls
      { state := { st with consentGiven := true, trackerData := some d, initDone := true },
        storage := { sto with tracker := some d },
        call1Issued := rep.1, call2Issued := rep.2,
        decorated := dec.1, populated := pop.1,
        decoratedCount := dec.2, populatedCount := pop.2, returned := some d }

/-- Source function giveConsent: set the flag, write the sentinel string to
storage, and when an initialization is pending and none has completed, run
the deferred initializer at once. -/
def giveConsent (cfg : Config) (env : Env) (st : TrackerState) (sto : Storage) :
    InitResult :=
  let st1 := { st with consentGiven := true }
  let sto1 := { sto with consent := some "true" }
  if st1.pendingInit && !st1.initDone then initTracker cfg env st1 sto1
  else
    { state := st1, storage := sto1, call1Issued := false, call2Issued := false,
      decorated := env.links, populated := env.controls,
      decoratedCount := 0, populatedCount := 0, returned := none }

/-- Source function revokeConsent: remove the consent key and the tracking
record key, clear the in-memory record and the flag, and mark the tracker
uninitialized. The pending flag is not changed by the source. -/
def revokeConsent (st : TrackerState) (sto : Storage) : TrackerState × Storage :=
  ({ st with consentGiven := false, trackerData := none, initDone := false },
   { sto with consent := none, tracker := none })

/-- The exposed session-identifier accessor getSessionUUID:
trackerData?.uuid. -/
def getSessionUUID (st : TrackerState) : Option String :=
  st.trackerData.bind (fun d => d.uuid)

/-- Claim C6: on a consented first initialization, the page-view request is
issued exactly when reporting is enabled and the session call got an
HTTP-ok response; with reporting disabled neither request is issued; a
non-ok status or a transport error on the session call suppresses the
page-view request. -/
theorem c6_page_view_call_gated_on_session_call (cfg : Config) (env : Env)
    (st : TrackerState) (sto : Storage)
    (hinit : st.initDone = false) (hcons : checkConsentVal cfg sto = true) :
    ((initTracker cfg env st sto).call2Issued = true ↔
      (cfg.enablePageViewTracking = true ∧ env.net1 = FetchResult.resp true)) ∧
    (cfg.enablePageViewTracking = false →
      (initTracker cfg env st sto).call1Issued = false ∧
      (initTracker cfg env st sto).call2Issued = false) := by
  unfold initTracker
  simp only [hinit, Bool.false_eq_true, if_false, hcons, Bool.not_true]
  unfold reportingPhase createOrUpdateSession
  cases henb : cfg.enablePageViewTracking with
  | false => simp
  | true =>
    cases hn : env.net1 with
    | err => simp
    | resp ok =>
      cases ok with
      | false => simp
      | true => simp

/-- Concrete environment for the C6 witness: the session call gets an ok
response. -/
def c6env : Env :=
  { nowv := 5, search := [], path := "/p", title := "t", newUuid := "u6",
    fbpCookie := none, net1 := FetchResult.resp true, links := [], controls := [] }

/-- Witness for C6: with default configuration (reporting enabled, consent
not required) and an ok session response, the page-view request is issued. -/
theorem c6_page_view_call_gated_witness :
    (initTracker {} c6env {} {}).call2Issued = true := by
  have h := c6_page_view_call_gated_on_session_call {} c6env {} {}
    (by decide) (by decide)
  exact h.1.mpr ⟨rfl, rfl⟩

/-- Claim C7: with consent required and the stored consent value not the
sentinel string, an initialization attempt creates no record, issues no
request, writes nothing to storage, leaves hasConsent false and marks the
initialization pending; a subsequent giveConsent writes the sentinel and
immediately runs the deferred initialization, creating and persisting the
record. -/
theorem c7_consent_gate_defers_until_given (cfg : Config) (env envG : Env)
    (st : TrackerState) (sto : Storage)
    (hreq : cfg.requireConsent = true)
    (hcons : ¬ sto.consent = some "true")
    (hinit : st.initDone = false)
    (hdata : st.trackerData = none) :
    (initTracker cfg env st sto).state.trackerData = none ∧
    (initTracker cfg env st sto).returned = none ∧
    (initTracker cfg env st sto).call1Issued = false ∧
    (initTracker cfg env st sto).call2Issued = false ∧
    (initTracker cfg env st sto).storage = sto ∧
    (initTracker cfg env st sto).state.consentGiven = false ∧
    (initTracker cfg env st sto).state.pendingInit = true ∧
    (initTracker cfg env st sto).state.initDone = false ∧
    (giveConsent cfg envG (initTracker cfg env st sto).state
      (initTracker cfg env st sto).storage).storage.consent = some "true" ∧
    (giveConsent cfg envG (initTracker cfg env st sto).state
      (initTracker cfg env st sto).storage).state.initDone = true ∧
    (giveConsent cfg envG (initTracker cfg env st sto).state
      (initTracker cfg env st sto).storage).state.trackerData
      = some (sessionStep (SESSION_TIMEOUT_MS cfg) envG.nowv envG.path envG.title
          envG.newUuid envG.fbpCookie sto.tracker (extractUTMsFromURL envG.search)) ∧
    (giveConsent cfg envG (initTracker cfg env st sto).state
      (initTracker cfg env st sto).storage).storage.tracker
      = some (sessionStep (SESSION_TIMEOUT_MS cfg) envG.nowv envG.path envG.title
          envG.newUuid envG.fbpCookie sto.tracker (extractUTMsFromURL envG.search)) := by
  have hc : checkConsentVal cfg sto = false := by
    unfold checkConsentVal
    simp [hreq, hcons]
  have hblocked : initTracker cfg env st sto =
      { state := { st with consentGiven := false, pendingInit := true },
        storage := sto, call1Issued := false, call2Issued := false,
        decorated := env.links, populated := env.controls,
        decoratedCount := 0, populatedCount := 0, returned := none } := by
    unfold initTracker
    simp [hinit, hc]
  rw [hblocked]
  have hcg : checkConsentVal cfg { sto with consent := some "true" } = true := by
    unfold checkConsentVal
    cases cfg.requireConsent <;> simp
  have hgive : giveConsent cfg envG
      { st with consentGiven := false, pendingInit := true } sto =
      initTracker cfg envG
        { st with consentGiven := true, pendingInit := true }
        { sto with consent := some "true" } := by
    unfold giveConsent
    simp [hinit]
  refine ⟨hdata, rfl, rfl, rfl, rfl, rfl, rfl, hinit, ?_, ?_, ?_, ?_⟩ <;>
    · rw [hgive]
      unfold initTracker
      simp [hinit, hcg]

/-- Concrete environment for the C7 witness. -/
def c7env : Env :=
  { nowv := 5, search := [], path := "/p", title := "t", newUuid := "u7",
    fbpCookie := none, net1 := FetchResult.resp true, links := [], controls := [] }

/-- The record the deferred C7 initialization creates: fresh identifier u7,
both timestamps 5, one page view. -/
def c7expected : TrackerData :=
  { uuid := some "u7"
    created_at := some 5
    last_updated := some 5
    page_views := some 1
    current_path := some "/p"
    current_title := some "t" }

/-- Witness for C7: with consent required and nothing stored, the blocked
attempt issues no request and marks the initialization pending, and
giveConsent then creates the deferred record. -/
theorem c7_consent_gate_defers_witness :
    (initTracker { requireConsent := true } c7env {} {}).call1Issued = false ∧
    (initTracker { requireConsent := true } c7env {} {}).state.pendingInit = true ∧
    (giveConsent { requireConsent := true } c7env
      (initTracker { requireConsent := true } c7env {} {}).state
      (initTracker { requireConsent := true } c7env {} {}).storage).state.trackerData
      = some c7expected := by
  obtain ⟨h1, h2, h3, h4, h5, h6, h7, h8, h9, h10, h11, h12⟩ :=
    c7_consent_gate_defers_until_given { requireConsent := true } c7env c7env {} {}
      rfl (by decide) rfl rfl
  refine ⟨h3, h7, ?_⟩
  rw [h11]
  decide

/-- With no stored record, the session step creates a record whose
identifier is the freshly generated one. -/
theorem sessionStep_noRecord_uuid (tms nowv : Int) (path title nu : String)
    (fb : Option String) (utms : List (String × String)) :
    (sessionStep tms nowv path title nu fb none utms).uuid = some nu := by
  unfold sessionStep createRecord applyUTMs freshRecord captureFbp
  dsimp only
  split <;> rfl

/-- Claim C8, amended: revokeConsent removes both storage keys, clears the
in-memory record (the exposed record reference and the session-identifier
accessor return absent) and marks the tracker uninitialized; a later
giveConsent re-runs initialization from the NoRecord state and creates a
brand-new session (fresh identifier) PROVIDED an initialization attempt is
pending (pendingInitialization true, as after a consent-blocked attempt);
when none is pending, giveConsent records consent only and does not itself
re-initialize. -/
theorem c8_revoke_clears_and_pending_give_restarts (cfg : Config) (env : Env)
    (st : TrackerState) (sto : Storage) :
    (revokeConsent st sto).2.consent = none ∧
    (revokeConsent st sto).2.tracker = none ∧
    (revokeConsent st sto).1.trackerData = none ∧
    getSessionUUID (revokeConsent st sto).1 = none ∧
    (revokeConsent st sto).1.initDone = false ∧
    (revokeConsent st sto).1.consentGiven = false ∧
    (st.pendingInit = true →
      (giveConsent cfg env (revokeConsent st sto).1 (revokeConsent st sto).2).state.initDone
        = true ∧
      (giveConsent cfg env (revokeConsent st sto).1 (revokeConsent st sto).2).state.trackerData
        = some (sessionStep (SESSION_TIMEOUT_MS cfg) env.nowv env.path env.title
            env.newUuid env.fbpCookie none (extractUTMsFromURL env.search)) ∧
      (sessionStep (SESSION_TIMEOUT_MS cfg) env.nowv env.path env.title
          env.newUuid env.fbpCookie none (extractUTMsFromURL env.search)).uuid
        = some env.newUuid) := by
  refine ⟨rfl, rfl, rfl, rfl, rfl, rfl, ?_⟩
  intro hpend
  have hcg : checkConsentVal cfg
      ({ tracker := none, consent := some "true" } : Storage) = true := by
    unfold checkConsentVal
    cases cfg.requireConsent <;> simp
  have hgive : giveConsent cfg env (revokeConsent st sto).1 (revokeConsent st sto).2 =
      initTracker cfg env
        { (revokeConsent st sto).1 with consentGiven := true }
        { (revokeConsent st sto).2 with consent := some "true" } := by
    unfold giveConsent
    simp [revokeConsent, hpend]
  rw [hgive]
  unfold initTracker
  simp only [revokeConsent, hcg, Bool.not_true, Bool.false_eq_true, if_false]
  exact ⟨trivial, trivial, sessionStep_noRecord_uuid _ _ _ _ _ _ _⟩

/-- Concrete environment for the C8 theorems. -/
def c8env : Env :=
  { nowv := 7, search := [], path := "/q", title := "s", newUuid := "new8",
    fbpCookie := none, net1 := FetchResult.resp true, links := [], controls := [] }

/-- A concrete previously-active record for the C8 counterexample. -/
def c8record : TrackerData :=
  { uuid := some "old8"
    created_at := some 1
    last_updated := some 1 }

/-- Counterexample for C8 as frozen: after a normal (never-blocked)
initialization pendingInitialization is false, so revoking consent and then
calling giveConsent does NOT run initialization: no record is created, no
session request is issued, and the tracker stays uninitialized — the claim
that a later giveConsent starts a brand-new session fails at this input. -/
theorem c8_revoke_then_give_counterexample :
    (giveConsent { requireConsent := true } c8env
      (revokeConsent
        { trackerData := some c8record, initDone := true,
          consentGiven := true, pendingInit := false }
        { tracker := some c8record, consent := some "true" }).1
      (revokeConsent
        { trackerData := some c8record, initDone := true,
          consentGiven := true, pendingInit := false }
        { tracker := some c8record, consent := some "true" }).2).state.trackerData
      = none ∧
    (giveConsent { requireConsent := true } c8env
      (revokeConsent
        { trackerData := some c8record, initDone := true,
          consentGiven := true, pendingInit := false }
        { tracker := some c8record, consent := some "true" }).1
      (revokeConsent
        { trackerData := some c8record, initDone := true,
          consentGiven := true, pendingInit := false }
        { tracker := some c8record, consent := some "true" }).2).call1Issued = false ∧
    (giveConsent { requireConsent := true } c8env
      (revokeConsent
        { trackerData := some c8record, initDone := true,
          consentGiven := true, pendingInit := false }
        { tracker := some c8record, consent := some "true" }).1
      (revokeConsent
        { trackerData := some c8record, initDone := true,
          consentGiven := true, pendingInit := false }
        { tracker := some c8record, consent := some "true" }).2).state.initDone
      = false := by
  decide

/-- Witness for the amended C8: with a pending initialization, revoke
followed by giveConsent creates a brand-new record under the fresh
identifier new8. -/
theorem c8_revoke_clears_witness :
    (giveConsent { requireConsent := true } c8env
      (revokeConsent
        { trackerData := some c8record, initDone := false,
          consentGiven := true, pendingInit := true }
        { tracker := some c8record, consent := some "true" }).1
      (revokeConsent
        { trackerData := some c8record, initDone := false,
          consentGiven := true, pendingInit := true }
        { tracker := some c8record, consent := some "true" }).2).state.trackerData
      = some { uuid := some "new8"
               created_at := some 7
               last_updated := some 7
               page_views := some 1
               current_path := some "/q"
               current_title := some "s" } := by
  have h := c8_revoke_clears_and_pending_give_restarts { requireConsent := true }
    c8env
    { trackerData := some c8record, initDone := false,
      consentGiven := true, pendingInit := true }
    { tracker := some c8record, consent := some "true" }
  rw [(h.2.2.2.2.2.2 rfl).2.1]
  decide

/-- Concrete environment for the C9 theorems: the clock and network would
make a real re-initialization visible (updated record, issued request). -/
def c9env : Env :=
  { nowv := 999999, search := [], path := "/r", title := "r", newUuid := "new9",
    fbpCookie := none, net1 := FetchResult.resp true, links := [], controls := [] }

/-- A concrete record of the already-completed initialization for C9. -/
def c9record : TrackerData :=
  { uuid := some "old9"
    created_at := some 1
    last_updated := some 1 }

/-- Counterexample for C9 as frozen: the exposed reinitialize is the
initializer itself, whose first line returns the in-memory record when
isInitialized is already set; invoked after a completed initialization (with
reporting enabled and the network available) it issues no session request,
does not update the persisted record and does not touch the state — it does
not run the initialization sequence. -/
theorem c9_reinitialize_counterexample :
    (initTracker {} c9env
      { trackerData := some c9record, initDone := true,
        consentGiven := true, pendingInit := false }
      { tracker := some c9record, consent := none }).call1Issued = false ∧
    (initTracker {} c9env
      { trackerData := some c9record, initDone := true,
        consentGiven := true, pendingInit := false }
      { tracker := some c9record, consent := none }).storage.tracker
      = some c9record ∧
    (initTracker {} c9env
      { trackerData := some c9record, initDone := true,
        consentGiven := true, pendingInit := false }
      { tracker := some c9record, consent := none }).state.trackerData
      = some c9record ∧
    (initTracker {} c9env
      { trackerData := some c9record, initDone := true,
        consentGiven := true, pendingInit := false }
      { tracker := some c9record, consent := none }).returned
      = some c9record := by
  decide

/-- Claim C9, amended: the exposed reinitialize operation runs the
initialization sequence (session create or continue, reporting, decoration,
population) only when the tracker is NOT marked initialized — a first run, a
consent-deferred run, or a run after revokeConsent; when a prior
initialization has completed in this page context it returns the in-memory
record unchanged and performs nothing. -/
theorem c9_reinitialize_only_when_uninitialized (cfg : Config) (env : Env)
    (st : TrackerState) (sto : Storage) :
    (st.initDone = true →
      initTracker cfg env st sto =
        { state := st, storage := sto, call1Issued := false, call2Issued := false,
          decorated := env.links, populated := env.controls,
          decoratedCount := 0, populatedCount := 0, returned := st.trackerData }) ∧
    (st.initDone = false → checkConsentVal cfg sto = true →
      (initTracker cfg env st sto).state.initDone = true ∧
      (initTracker cfg env st sto).storage.tracker
        = some (sessionStep (SESSION_TIMEOUT_MS cfg) env.nowv env.path env.title
            env.newUuid env.fbpCookie sto.tracker (extractUTMsFromURL env.search)) ∧
      (initTracker cfg env st sto).call1Issued = cfg.enablePageViewTracking) := by
  constructor
  · intro hdone
    unfold initTracker
    rw [if_pos hdone]
  · intro hdone hcons
    unfold initTracker
    simp only [hdone, Bool.false_eq_true, if_false, hcons, Bool.not_true]
    exact ⟨trivial, trivial, rfl⟩

/-- Witness for the amended C9: on an uninitialized state with open consent
the run happens (session request issued, record persisted with the fresh
identifier), and on an initialized state it does not. -/
theorem c9_reinitialize_witness :
    (initTracker {} c9env {} {}).call1Issued = true ∧
    (initTracker {} c9env
      { trackerData := some c9record, initDone := true,
        consentGiven := true, pendingInit := false }
      { tracker := some c9record, consent := none }).call1Issued = false := by
  constructor
  · rw [((c9_reinitialize_only_when_uninitialized {} c9env {} {}).2
      rfl (by decide)).2.2]
  · rw [(c9_reinitialize_only_when_uninitialized {} c9env
      { trackerData := some c9record, initDone := true,
        consentGiven := true, pendingInit := false }
      { tracker := some c9record, consent := none }).1 rfl]
